import Mathlib

/-!
Shallow embedding of `src/chaos/src/data.rs`: an axum handler that decodes a
JSON body `{"data": [...]}` into a list of untagged `Data` values
(`String(String) | Int(usize)`) and folds it into a `DataResponse`
`{string_len, int_sum}`.

Machine integers: `usize` is modelled as `Nat` with additions taken modulo
`2 ^ 64` (release-mode wrapping semantics of Rust's `+`).  Rust's
`String::len` is the UTF-8 byte length, modelled by `String.utf8ByteSize`.
-/

namespace Chaos

/-- The modulus of `usize` arithmetic on a 64-bit target: `2 ^ 64`. -/
def USIZE_SIZE : Nat := 2 ^ 64

/-- The `Data` enum of `src/chaos/src/data.rs`: an untagged union with the
variants in declaration order `String(String)`, then `Int(usize)`. -/
inductive Data where
  | string (s : String)
  | int (n : Nat)
deriving DecidableEq

/-- Raw JSON values handed to the serde-derived deserializer by the
transport layer (the generic "array of untyped values" of the input
boundary): strings, integer-valued numbers, non-integer numbers, booleans,
null, arrays and objects. -/
inductive Raw where
  | str (s : String)
  | int (i : Int)
  | float
  | bool (b : Bool)
  | null
  | arr (xs : List Raw)
  | obj

/-- Deserializing the `String` variant's payload from a raw value: succeeds
exactly on a JSON string. -/
def tryString : Raw → Option String
  | .str s => some s
  | _ => none

/-- Deserializing the `Int(usize)` variant's payload from a raw value:
succeeds exactly on an integer-valued number in `[0, 2^64)`. -/
def tryUsize : Raw → Option Nat
  | .int i => if 0 ≤ i ∧ i < (USIZE_SIZE : Int) then some i.toNat else none
  | _ => none

/-- The serde-derived deserializer of the untagged enum `Data`: variants are
tried in declaration order, `String` first, then `Int`. -/
def decodeData (r : Raw) : Option Data :=
  match tryString r with
  | some s => some (Data.string s)
  | none =>
    match tryUsize r with
    | some n => some (Data.int n)
    | none => none

/-- The classification order written in the spec (§4.1): the non-negative
integer interpretation (`Count`) first, then the character sequence
(`Text`).  Kept separate from `decodeData` so the two orders can be
compared. -/
def decodeDataCountFirst (r : Raw) : Option Data :=
  match tryUsize r with
  | some n => some (Data.int n)
  | none =>
    match tryString r with
    | some s => some (Data.string s)
    | none => none

/-- Modelled from the spec: the error taxonomy of §7 for a failed decode:
`UnrecognizedElement(index)` — the raw element at `index` is neither a
non-negative integer nor a character sequence.  (The serde-derived
deserializer in the source only produces an opaque error value; the index
payload is the spec's abstraction of the failure position.) -/
inductive DecodeError where
  | unrecognizedElement (index : Nat)
deriving DecidableEq

/-- Decoding a list of raw values element by element, failing at the first
element that matches no variant of `Data`; `i` is the index of the first
element of the remaining list. -/
def decodeList : Nat → List Raw → Except DecodeError (List Data)
  | _, [] => Except.ok []
  | i, r :: rs =>
    match decodeData r with
    | none => Except.error (DecodeError.unrecognizedElement i)
    | some d => Except.map (fun ds => d :: ds) (decodeList (i + 1) rs)

/-- The `DataRequest` struct of `src/chaos/src/data.rs`: a single field
`data: Vec<Data>`. -/
structure DataRequest where
  data : List Data
deriving DecidableEq

/-- The serde-derived decode of a whole request body's raw element list:
all-or-nothing over the list. -/
def decodeRequest (rs : List Raw) : Except DecodeError DataRequest :=
  Except.map DataRequest.mk (decodeList 0 rs)

/-- The `DataResponse` struct of `src/chaos/src/data.rs`, fields in
declaration order: `string_len: usize`, `int_sum: usize`. -/
structure DataResponse where
  string_len : Nat
  int_sum : Nat
deriving DecidableEq

/-- One step of the fold in `DataRequest::process`: a `String` adds its byte
length to the first accumulator, an `Int` adds its value to the second;
`usize` addition wraps modulo `2 ^ 64`. -/
def step (acc : Nat × Nat) (d : Data) : Nat × Nat :=
  match d with
  | .string s => ((acc.1 + s.utf8ByteSize) % USIZE_SIZE, acc.2)
  | .int n => (acc.1, (acc.2 + n) % USIZE_SIZE)

/-- `DataRequest::process`: fold the data list from `(0, 0)` and package the
accumulators as a `DataResponse`. -/
def DataRequest.process (req : DataRequest) : DataResponse :=
  let p := req.data.foldl step (0, 0)
  { string_len := p.1, int_sum := p.2 }

/-- The HTTP status code `StatusCode::OK`. -/
def STATUS_OK : Nat := 200

/-- The `process_data` handler: unconditionally returns
`(StatusCode::OK, Json(request.process()))`; there is no error branch. -/
def process_data (request : DataRequest) : Nat × DataResponse :=
  (STATUS_OK, request.process)

/-- The serde-derived serialization of `DataResponse` as an ordered list of
(field name, value) pairs: the Rust field names in declaration order. -/
def serializeDataResponse (r : DataResponse) : List (String × Nat) :=
  [("string_len", r.string_len), ("int_sum", r.int_sum)]

/-- The contribution of one element to `string_len`: the UTF-8 byte length
of a `String`, 0 for an `Int`. -/
def textLenByte : Data → Nat
  | .string s => s.utf8ByteSize
  | .int _ => 0

/-- The contribution of one element to `int_sum`: the value of an `Int`,
0 for a `String`. -/
def countVal : Data → Nat
  | .string _ => 0
  | .int n => n

theorem usize_size_pos : 0 < USIZE_SIZE := by
  unfold USIZE_SIZE
  positivity

/-- The fold of `process`, from any in-range accumulator pair, computes the
two elementwise sums modulo `2 ^ 64`. -/
theorem foldl_step_eq (xs : List Data) (a b : Nat)
    (ha : a < USIZE_SIZE) (hb : b < USIZE_SIZE) :
    xs.foldl step (a, b) =
      ((a + (xs.map textLenByte).sum) % USIZE_SIZE,
       (b + (xs.map countVal).sum) % USIZE_SIZE) := by
  induction xs generalizing a b with
  | nil => simp [Nat.mod_eq_of_lt ha, Nat.mod_eq_of_lt hb]
  | cons d rest ih =>
    cases d with
    | string s =>
      rw [List.foldl_cons]
      show List.foldl step ((a + s.utf8ByteSize) % USIZE_SIZE, b) rest = _
      rw [ih _ _ (Nat.mod_lt _ usize_size_pos) hb]
      simp only [List.map_cons, List.sum_cons, textLenByte, countVal, Nat.zero_add]
      rw [Nat.mod_add_mod, Nat.add_assoc]
    | int n =>
      rw [List.foldl_cons]
      show List.foldl step (a, (b + n) % USIZE_SIZE) rest = _
      rw [ih _ _ ha (Nat.mod_lt _ usize_size_pos)]
      simp only [List.map_cons, List.sum_cons, textLenByte, countVal, Nat.zero_add]
      rw [Nat.mod_add_mod, Nat.add_assoc]

/-- `process` computes exactly the two elementwise sums modulo `2 ^ 64`. -/
theorem process_eq_mod (req : DataRequest) :
    req.process =
      { string_len := (req.data.map textLenByte).sum % USIZE_SIZE,
        int_sum := (req.data.map countVal).sum % USIZE_SIZE } := by
  unfold DataRequest.process
  rw [foldl_step_eq _ 0 0 usize_size_pos usize_size_pos]
  simp

/-- Decoding from offset `k` fails at the first unrecognizable element: if
the element at position `i` fails classification and every earlier element
succeeds, the result is `UnrecognizedElement (k + i)`. -/
theorem decodeList_err_at (rs : List Raw) : ∀ (k i : Nat) (h : i < rs.length),
    decodeData (rs.get ⟨i, h⟩) = none →
    (∀ j (hj : j < rs.length), j < i → decodeData (rs.get ⟨j, hj⟩) ≠ none) →
    decodeList k rs = Except.error (DecodeError.unrecognizedElement (k + i)) := by
  induction rs with
  | nil =>
    intro k i h
    exact absurd h (by simp)
  | cons r rest ih =>
    intro k i h hbad hfirst
    cases i with
    | zero =>
      have hr : decodeData r = none := hbad
      simp [decodeList, hr]
    | succ i' =>
      cases hrd : decodeData r with
      | none => exact absurd hrd (hfirst 0 (by simp) (Nat.succ_pos i'))
      | some d =>
        have h' : i' < rest.length := Nat.lt_of_succ_lt_succ h
        have hbad' : decodeData (rest.get ⟨i', h'⟩) = none := hbad
        have hfirst' : ∀ j (hj : j < rest.length), j < i' →
            decodeData (rest.get ⟨j, hj⟩) ≠ none := by
          intro j hj hlt
          exact hfirst (j + 1) (Nat.succ_lt_succ hj) (Nat.succ_lt_succ hlt)
        have hrec := ih (k + 1) i' h' hbad' hfirst'
        rw [show k + (i' + 1) = (k + 1) + i' by omega]
        simp [decodeList, hrd, hrec, Except.map]

/-- Claim C2: an input sequence whose element at position `i` is neither a
plain non-negative integer nor a plain character sequence — every earlier
element being classifiable — fails to decode as a whole, producing
`UnrecognizedElement` at that element's index and no `DataRequest`. -/
theorem decode_all_or_nothing (rs : List Raw) (i : Nat) (h : i < rs.length)
    (hbad : decodeData (rs.get ⟨i, h⟩) = none)
    (hfirst : ∀ j (hj : j < rs.length), j < i → decodeData (rs.get ⟨j, hj⟩) ≠ none) :
    decodeRequest rs = Except.error (DecodeError.unrecognizedElement i) := by
  unfold decodeRequest
  rw [decodeList_err_at rs 0 i h hbad hfirst]
  simp [Except.map]

/-- Concrete instance of `decode_all_or_nothing`: a negative integer at
index 1 aborts the whole decode with `UnrecognizedElement 1`. -/
theorem decode_all_or_nothing_witness :
    decodeRequest [Raw.str "ok", Raw.int (-1)] =
      Except.error (DecodeError.unrecognizedElement 1) :=
  decode_all_or_nothing [Raw.str "ok", Raw.int (-1)] 1 (by decide) (by rfl)
    (by decide)

/-- Claim C3: the untagged classification of one raw value is extensionally
the spec's fixed order — integer interpretation first, then character
sequence — and any raw value admitting the non-negative-integer
interpretation resolves to `Count` (`Data.int`), never to `Text`.  (In the
source the variants are declared `String` first, then `Int`; the two orders
agree on every raw value because no raw value satisfies both.) -/
theorem decode_order_equiv (r : Raw) :
    decodeData r = decodeDataCountFirst r ∧
    ∀ n, tryUsize r = some n → decodeData r = some (Data.int n) := by
  have heq : decodeData r = decodeDataCountFirst r := by
    cases r <;> simp [decodeData, decodeDataCountFirst, tryString, tryUsize]
  refine ⟨heq, fun n hn => ?_⟩
  rw [heq]
  unfold decodeDataCountFirst
  rw [hn]

/-- Concrete instance of `decode_order_equiv`: the raw value 5 resolves to
`Count` (`Data.int 5`). -/
theorem decode_order_equiv_witness : decodeData (Raw.int 5) = some (Data.int 5) :=
  (decode_order_equiv (Raw.int 5)).2 5 (by decide)

/-- Claim C1 (amended): for every request, `string_len` is the sum of the
byte lengths of its `String` elements and `int_sum` the sum of its `Int`
values, each taken modulo `2 ^ 64` (exact whenever the exact sums are below
`2 ^ 64`); the empty request yields `(0, 0)`. -/
theorem process_aggregates (req : DataRequest) :
    req.process.string_len = (req.data.map textLenByte).sum % USIZE_SIZE ∧
    req.process.int_sum = (req.data.map countVal).sum % USIZE_SIZE ∧
    (DataRequest.mk []).process = ⟨0, 0⟩ :=
  ⟨by rw [process_eq_mod], by rw [process_eq_mod], by decide⟩

/-- Claim C1 counterexample: the decodable sequence `[2^64 - 1, 1]` has
`int_sum` 0, not the exact sum `2^64` of its `Count` values. -/
theorem process_aggregates_counterexample :
    decodeRequest [Raw.int (2 ^ 64 - 1), Raw.int 1] =
      Except.ok ⟨[Data.int (2 ^ 64 - 1), Data.int 1]⟩ ∧
    (DataRequest.mk [Data.int (2 ^ 64 - 1), Data.int 1]).process.int_sum ≠
      ([Data.int (2 ^ 64 - 1), Data.int 1].map countVal).sum :=
  ⟨by rfl, by decide⟩

/-- Claim C4 (amended): each `String` element contributes its UTF-8 byte
length (Rust `String::len`), not its character count, to `string_len`. -/
theorem process_text_bytes (req : DataRequest) :
    req.process.string_len = (req.data.map textLenByte).sum % USIZE_SIZE ∧
    (DataRequest.mk [Data.string "aé"]).process.string_len =
      ("aé" : String).utf8ByteSize :=
  ⟨by rw [process_eq_mod], by decide⟩

/-- Claim C4 counterexample: the two-byte, one-character text "é"
contributes 2 to `string_len`, not its character length 1. -/
theorem process_text_chars_counterexample :
    (DataRequest.mk [Data.string "é"]).process.string_len = 2 ∧
    ("é" : String).length = 1 ∧
    (DataRequest.mk [Data.string "é"]).process.string_len ≠
      ("é" : String).length :=
  ⟨by decide, by decide, by decide⟩

/-- Claim C5 (amended): the serialized success response carries exactly the
two fields named `string_len` and `int_sum`, in that order, holding the two
aggregates. -/
theorem response_field_names (req : DataRequest) :
    serializeDataResponse req.process =
      [("string_len", (req.data.map textLenByte).sum % USIZE_SIZE),
       ("int_sum", (req.data.map countVal).sum % USIZE_SIZE)] := by
  rw [process_eq_mod]
  rfl

/-- Claim C5 counterexample: the serialized field names are `string_len`
and `int_sum`; neither `textLength` nor `countSum` occurs. -/
theorem response_field_names_counterexample :
    (serializeDataResponse ((DataRequest.mk []).process)).map Prod.fst =
      ["string_len", "int_sum"] ∧
    "textLength" ∉ (serializeDataResponse ((DataRequest.mk []).process)).map Prod.fst ∧
    "countSum" ∉ (serializeDataResponse ((DataRequest.mk []).process)).map Prod.fst := by
  decide

/-- Claim C6 (amended): aggregation never surfaces an overflow error — the
`usize` additions wrap modulo `2 ^ 64` and a normal in-range `DataResponse`
is always produced. -/
theorem aggregate_overflow_wraps (req : DataRequest) :
    req.process.int_sum = (req.data.map countVal).sum % USIZE_SIZE ∧
    req.process.string_len < USIZE_SIZE ∧
    req.process.int_sum < USIZE_SIZE := by
  rw [process_eq_mod]
  exact ⟨rfl, Nat.mod_lt _ usize_size_pos, Nat.mod_lt _ usize_size_pos⟩

/-- Claim C6 counterexample: the overflowing sequence `[2^64 - 1, 2]` wraps
to `int_sum` 1 and the handler still answers with status 200, rather than
surfacing an `AggregateOverflow` failure. -/
theorem aggregate_overflow_counterexample :
    (DataRequest.mk [Data.int (USIZE_SIZE - 1), Data.int 2]).process.int_sum = 1 ∧
    (process_data (DataRequest.mk [Data.int (USIZE_SIZE - 1), Data.int 2])).1 =
      STATUS_OK := by
  decide

/-- Claim C7: aggregation of a permuted data list yields the same
`DataResponse`; element order has no effect on the result. -/
theorem process_perm_invariant (r₁ r₂ : DataRequest) (h : r₁.data.Perm r₂.data) :
    r₁.process = r₂.process := by
  rw [process_eq_mod, process_eq_mod, (h.map textLenByte).sum_eq,
    (h.map countVal).sum_eq]

/-- Concrete instance of `process_perm_invariant` on a two-element swap. -/
theorem process_perm_invariant_witness :
    (DataRequest.mk [Data.string "ab", Data.int 3]).process =
      (DataRequest.mk [Data.int 3, Data.string "ab"]).process :=
  process_perm_invariant _ _ (by decide)

/-- Claim C8: `process` and `decodeRequest` are deterministic pure
functions — two runs on the same input produce identical results. -/
theorem process_deterministic (req : DataRequest) (rs : List Raw)
    (r₁ r₂ : DataResponse) (e₁ e₂ : Except DecodeError DataRequest)
    (h₁ : r₁ = req.process) (h₂ : r₂ = req.process)
    (g₁ : e₁ = decodeRequest rs) (g₂ : e₂ = decodeRequest rs) :
    r₁ = r₂ ∧ e₁ = e₂ :=
  ⟨h₁.trans h₂.symm, g₁.trans g₂.symm⟩

/-- Concrete instance of `process_deterministic`. -/
theorem process_deterministic_witness :
    (DataRequest.mk [Data.int 1]).process = (DataRequest.mk [Data.int 1]).process ∧
    decodeRequest [Raw.str "x"] = decodeRequest [Raw.str "x"] :=
  process_deterministic (DataRequest.mk [Data.int 1]) [Raw.str "x"] _ _ _ _
    rfl rfl rfl rfl

/-- Claim C9 (amended): aggregation is a homomorphism for concatenation up
to the `usize` modulus: each aggregate of `xs ++ ys` is the sum of the two
parts' aggregates taken modulo `2 ^ 64`. -/
theorem process_concat (xs ys : List Data) :
    (DataRequest.mk (xs ++ ys)).process.string_len =
      ((DataRequest.mk xs).process.string_len +
        (DataRequest.mk ys).process.string_len) % USIZE_SIZE ∧
    (DataRequest.mk (xs ++ ys)).process.int_sum =
      ((DataRequest.mk xs).process.int_sum +
        (DataRequest.mk ys).process.int_sum) % USIZE_SIZE := by
  rw [process_eq_mod, process_eq_mod, process_eq_mod]
  constructor <;>
    simp only [List.map_append, List.sum_append] <;>
    rw [← Nat.add_mod]

/-- Claim C9 counterexample: concatenating `[2^64 - 1]` and `[3]` yields
`int_sum` 2, not the sum `2^64 + 2` of the parts' `int_sum`s. -/
theorem process_concat_counterexample :
    (DataRequest.mk ([Data.int (USIZE_SIZE - 1)] ++ [Data.int 3])).process.int_sum ≠
      (DataRequest.mk [Data.int (USIZE_SIZE - 1)]).process.int_sum +
        (DataRequest.mk [Data.int 3]).process.int_sum := by
  decide

/-- Claim C10: for every decoded request the handler is total and always
succeeds: it unconditionally returns status 200 OK paired with the computed
`DataResponse`; there is no error branch. -/
theorem handler_total (req : DataRequest) :
    (process_data req).1 = STATUS_OK ∧ STATUS_OK = 200 ∧
    (process_data req).2 =
      { string_len := (req.data.map textLenByte).sum % USIZE_SIZE,
        int_sum := (req.data.map countVal).sum % USIZE_SIZE } :=
  ⟨rfl, rfl, process_eq_mod req⟩

/-- The unit test of `src/chaos/src/data.rs` replayed in the model:
`["Hello", 1, 5, "World", "!"]` aggregates to `(11, 6)`. -/
theorem process_test_vector :
    (DataRequest.mk [Data.string "Hello", Data.int 1, Data.int 5,
      Data.string "World", Data.string "!"]).process = ⟨11, 6⟩ := by
  decide

end Chaos
